import Mathlib

set_option linter.unusedVariables false

/-!
Shallow embedding of the pyext2 ext2 driver (Python 2 sources) and proofs
about its operations.  Machine integers are modelled as `Nat`; Python 2's
`/` on ints is floor division and is modelled by `Nat` division; byte
strings are `List Nat`; a device's backing store is a total function from
byte position to byte value; fallible operations return `Except String`
carrying the message of the exception raised by the source.
-/

/-! ### Device (src/ext2/disk/device.py, `_DeviceFromFile`) -/

/-- A device backed by an image file: a byte-addressable store plus the
mounted flag.  The store is total (reads never run short), which is the
case exercised by every claim below. -/
structure DeviceFromFile where
  store : Nat → Nat
  mounted : Bool

/-- `_DeviceFromFile.read(position, size)`: seeks and returns `size` bytes
from `position`. -/
def DeviceFromFile.read (d : DeviceFromFile) (position size : Nat) : List Nat :=
  (List.range size).map fun k => d.store (position + k)

/-- `_DeviceFromFile.write(position, byteString)`: the source seeks and
flushes, but the actual write statement is commented out
(`# TODO self._imageFile.write(byteString)`), so the store is unchanged. -/
def DeviceFromFile.write (d : DeviceFromFile) (position : Nat) (byteString : List Nat) :
    DeviceFromFile :=
  d

/-! ### Superblock (src/ext2/disk/superblock.py, `_Superblock`) -/

/-- The mutable state of `_Superblock` relevant to the writable properties,
plus the geometry fields.  `saveCopies` mirrors the `_saveCopies` class
attribute. -/
structure Superblock where
  numFreeBlocks : Nat
  numFreeInodes : Nat
  timeLastMount : Nat
  timeLastWrite : Nat
  numMountsSinceCheck : Nat
  stateVal : Nat
  volumeName : String
  numBlocks : Nat
  numBlocksPerGroup : Nat
  blockSize : Nat
  saveCopies : Bool

/-- A device write issued by a superblock setter: position paired with the
bytes written.  Every setter in the source ends in `# TODO write to image`,
so each returns an empty write list. -/
abbrev DeviceWrite := Nat × List Nat

/-- Setter of the `numFreeBlocks` property: updates the in-memory field;
the persistence step is `# TODO write to image`. -/
def Superblock.setNumFreeBlocks (sb : Superblock) (value : Nat) :
    Superblock × List DeviceWrite :=
  ({ sb with numFreeBlocks := value }, [])

/-- Setter of the `numFreeInodes` property (persistence is a TODO). -/
def Superblock.setNumFreeInodes (sb : Superblock) (value : Nat) :
    Superblock × List DeviceWrite :=
  ({ sb with numFreeInodes := value }, [])

/-- Setter of the `timeLastMount` property (persistence is a TODO). -/
def Superblock.setTimeLastMount (sb : Superblock) (value : Nat) :
    Superblock × List DeviceWrite :=
  ({ sb with timeLastMount := value }, [])

/-- Setter of the `timeLastWrite` property (persistence is a TODO). -/
def Superblock.setTimeLastWrite (sb : Superblock) (value : Nat) :
    Superblock × List DeviceWrite :=
  ({ sb with timeLastWrite := value }, [])

/-- Setter of the `numMountsSinceCheck` property (persistence is a TODO). -/
def Superblock.setNumMountsSinceCheck (sb : Superblock) (value : Nat) :
    Superblock × List DeviceWrite :=
  ({ sb with numMountsSinceCheck := value }, [])

/-- Setter of the `state` property: the source coerces the value with
`float(value)` (raising on non-numbers) and stores it (persistence is a
TODO). -/
def Superblock.setState (sb : Superblock) (value : Nat) :
    Superblock × List DeviceWrite :=
  ({ sb with stateVal := value }, [])

/-- Setter of the `volumeName` property (persistence is a TODO). -/
def Superblock.setVolumeName (sb : Superblock) (value : String) :
    Superblock × List DeviceWrite :=
  ({ sb with volumeName := value }, [])

/-- `_Superblock.__init__`, derivation of `_num_block_groups`:
`int(ceil(self._num_blocks / self._num_blocks_per_group))` when
`_num_blocks_per_group > 0`, else `0`.  In Python 2 the `/` is integer
floor division, so `ceil` receives an integer and is the identity: the
computed value is the floor of the quotient. -/
def Superblock.numBlockGroupsOf (numBlocks numBlocksPerGroup : Nat) : Nat :=
  if numBlocksPerGroup > 0 then numBlocks / numBlocksPerGroup else 0

/-! ### File-type dispatch (src/ext2/file/directory.py, `Ext2Directory._openEntry`) -/

/-- The class of object `_openEntry` instantiates for an inode. -/
inductive FileClass where
  | directory
  | regular
  | symlink
  | plain
deriving DecidableEq

/-- `Ext2Directory._openEntry`'s dispatch on the inode's mode bits: the
directory test, then the regular-file test, then the symlink test, else
the plain `Ext2File`. -/
def openEntryClass (mode : Nat) : FileClass :=
  if mode &&& 0x4000 ≠ 0 then .directory
  else if mode &&& 0x8000 ≠ 0 then .regular
  else if mode &&& 0xA000 ≠ 0 then .symlink
  else .plain

/-! ### Regular-file append write (src/ext2/file/regularfile.py, `Ext2RegularFile.write`) -/

/-- The loop of `Ext2RegularFile.write`: state is `(written, remaining,
size)` where `remaining` is the length of the (repeatedly sliced)
`byteString` and `size` is the inode size.  The loop guard is
`written < len(byteString)`, i.e. `written < remaining`.  Each pass writes
`min(len(byteString), blockSize - byteIndex)` bytes into the tail block
and advances all three counters.  `fuel` bounds the recursion; callers
pass more fuel than the loop can consume. -/
def regularFileWriteLoop (blockSize : Nat) : Nat → Nat → Nat → Nat → Nat
  | 0, _, _, size => size
  | fuel + 1, written, remaining, size =>
    if written < remaining then
      let byteIndex := size % blockSize
      let numBytesToWrite := min remaining (blockSize - byteIndex)
      regularFileWriteLoop blockSize fuel (written + numBytesToWrite)
        (remaining - numBytesToWrite) (size + numBytesToWrite)
    else size

/-- `Ext2RegularFile.write(byteString)` starting from inode size `size`:
returns the final inode size after the loop terminates. -/
def regularFileWrite (blockSize size len : Nat) : Nat :=
  regularFileWriteLoop blockSize (len + 1) 0 len size

/-! ### Inode block-map lookup (src/ext2/disk/inode.py, `_Inode.lookupBlockId`) -/

/-- Little-endian value of the `n` bytes of `bytes` starting at `offset`
(out-of-range bytes read as 0; the claims only exercise in-range reads). -/
def leValue (bytes : List Nat) (offset n : Nat) : Nat :=
  (List.range n).foldr (fun k acc => bytes.getD (offset + k) 0 + 256 * acc) 0

/-- `_Inode.__getBidListAtBid(bid)`: read the block at `bid` from the
device and unpack it as `blockSize / 4` little-endian 32-bit block ids. -/
def getBidListAtBid (store : Nat → Nat) (blockSize bid : Nat) : List Nat :=
  let block := (List.range blockSize).map fun k => store (bid * blockSize + k)
  (List.range (blockSize / 4)).map fun k => leValue block (4 * k) 4

/-- `_Inode.lookupBlockId(index)`: resolve a logical file block index to a
physical block id through the direct, single-, double- and triple-indirect
ranges; beyond the triple-indirect maximum the source raises
`FilesystemError("Block not found.")`.  `blocks` is the inode's 15-entry
block array; `store` is the device. -/
def Inode.lookupBlockId (store : Nat → Nat) (blockSize : Nat) (blocks : List Nat)
    (index : Nat) : Except String Nat :=
  let numIdsPerBlock := blockSize / 4
  let numDirectBlocks := 12
  let numIndirectBlocks := numDirectBlocks + numIdsPerBlock
  let numDoublyIndirectBlocks := numIndirectBlocks + numIdsPerBlock ^ 2
  let numTreblyIndirectBlocks := numDoublyIndirectBlocks + numIdsPerBlock ^ 3
  if index < numDirectBlocks then
    .ok (blocks.getD index 0)
  else if index < numIndirectBlocks then
    let directList := getBidListAtBid store blockSize (blocks.getD 12 0)
    .ok (directList.getD (index - numDirectBlocks) 0)
  else if index < numDoublyIndirectBlocks then
    let indirectList := getBidListAtBid store blockSize (blocks.getD 13 0)
    let index1 := index - numIndirectBlocks
    let directList := getBidListAtBid store blockSize
      (indirectList.getD (index1 / numIdsPerBlock) 0)
    .ok (directList.getD (index1 % numIdsPerBlock) 0)
  else if index < numTreblyIndirectBlocks then
    let doublyIndirectList := getBidListAtBid store blockSize (blocks.getD 14 0)
    let index1 := index - numDoublyIndirectBlocks
    let indirectList := getBidListAtBid store blockSize
      (doublyIndirectList.getD (index1 / numIdsPerBlock ^ 2) 0)
    let index2 := index1 % numIdsPerBlock ^ 2
    let directList := getBidListAtBid store blockSize
      (indirectList.getD (index2 / numIdsPerBlock) 0)
    .ok (directList.getD (index2 % numIdsPerBlock) 0)
  else .error "Block not found."

/-! ### Directory entry list (src/ext2/file/directory.py, `_EntryList.__init__`) -/

/-- A parsed directory entry: block index, block id, in-block offset, and
the record fields `inode_num`, `rec_len` (called `size` in the source) and
`name_len`. -/
structure DirEntry where
  bindex : Nat
  bid : Nat
  offset : Nat
  inodeNum : Nat
  size : Nat
  nameLen : Nat
deriving DecidableEq

/-- The inner `while offset < blockSize` loop of `_EntryList.__init__`:
parse records at increasing offsets, stopping at the block boundary or at
a record with inode number 0.  Returns the parsed entries and the final
value of `offset` (the source keeps `offset` alive across blocks).  `fuel`
bounds the recursion; `blockSize + 1` steps are enough whenever every
record length is positive. -/
def parseEntriesInBlock (blockSize : Nat) (blockBytes : List Nat) (bindex bid : Nat) :
    Nat → Nat → List DirEntry × Nat
  | 0, offset => ([], offset)
  | fuel + 1, offset =>
    if offset < blockSize then
      let inodeNum := leValue blockBytes offset 4
      if inodeNum = 0 then ([], offset)
      else
        let recLen := leValue blockBytes (offset + 4) 2
        let nameLen := blockBytes.getD (offset + 6) 0
        let rest := parseEntriesInBlock blockSize blockBytes bindex bid fuel (offset + recLen)
        (⟨bindex, bid, offset, inodeNum, recLen, nameLen⟩ :: rest.1, rest.2)
    else ([], offset)

/-- The outer `for i in range(numBlocks)` loop of `_EntryList.__init__`:
look up block `i`, stop at a zero block id, read its bytes, and run the
inner parse loop — threading `offset` from one block to the next exactly
as the source does (the variable is initialised once, before the loop). -/
def entryListBlocks (blockSize : Nat) (lookup : Nat → Nat) (readBlock : Nat → List Nat) :
    Nat → Nat → Nat → List DirEntry
  | _, 0, _ => []
  | i, n + 1, offset =>
    let blockId := lookup i
    if blockId = 0 then []
    else
      let parsed := parseEntriesInBlock blockSize (readBlock blockId) i blockId
        (blockSize + 1) offset
      parsed.1 ++ entryListBlocks blockSize lookup readBlock (i + 1) n parsed.2

/-- `_EntryList.__init__` for a directory with `numBlocks` data blocks:
`offset = 0` once, then walk the blocks. -/
def entryListInit (blockSize numBlocks : Nat) (lookup : Nat → Nat)
    (readBlock : Nat → List Nat) : List DirEntry :=
  entryListBlocks blockSize lookup readBlock 0 numBlocks 0

/-! ### Path lookup (src/ext2/file/directory.py, `Ext2Directory.getFileAt`) -/

/-- The shape of an opened file: a directory with its named entries, a
regular file, a symlink, or another file class. -/
inductive FsTree where
  | dir (entries : List (String × FsTree))
  | regular
  | symlink
  | plain

/-- A file object as `_openEntry` produces it: the entry name it was
reached by, plus its content shape. -/
structure FileObj where
  name : String
  tree : FsTree

/-- Collapse every run of consecutive slashes in a character list to a
single slash (first argument: whether the previous character was a
slash). -/
def dedupSlash : Bool → List Char → List Char
  | _, [] => []
  | lastSlash, c :: rest =>
    if c = '/' then
      if lastSlash then dedupSlash true rest
      else c :: dedupSlash true rest
    else c :: dedupSlash false rest

/-- Split a character list at each slash, keeping empty pieces (like
Python's `str.split` on a single separator). -/
def splitCharsOnSlash : List Char → List (List Char)
  | [] => [[]]
  | c :: rest =>
    if c = '/' then [] :: splitCharsOnSlash rest
    else
      match splitCharsOnSlash rest with
      | t :: ts => (c :: t) :: ts
      | [] => [[c]]

/-- `re.compile("/+").split(relativePath)`: splitting at maximal runs of
slashes equals collapsing each run to one slash and splitting there. -/
def pySplitSlashRuns (s : String) : List String :=
  (splitCharsOnSlash (dedupSlash false s.data)).map fun cs => String.mk cs

/-- One step of the component loop in `getFileAt`: when the current file
is a directory, scan its entry list for the first name match and descend;
otherwise (or when no entry matches) keep the current file. -/
def lookupStep (cur : FileObj) (part : String) : FileObj :=
  match cur.tree with
  | .dir entries =>
    match entries.find? (fun e => e.1 = part) with
    | some e => ⟨e.1, e.2⟩
    | none => cur
  | _ => cur

/-- `Ext2Directory.getFileAt(relativePath)`: split on `/+`, drop a leading
and a trailing empty component (each only while more than one component
remains), walk the components with `lookupStep`, then raise
`FileNotFoundError` when the last component is non-empty and differs from
the reached file's name. -/
def getFileAt (self : FileObj) (relativePath : String) : Except String FileObj :=
  let pathParts := pySplitSlashRuns relativePath
  let pathParts :=
    match pathParts with
    | p0 :: rest => if pathParts.length > 1 ∧ p0 = "" then rest else pathParts
    | [] => pathParts
  let pathParts :=
    if pathParts.length > 1 ∧ pathParts.getLastD "" = "" then pathParts.dropLast
    else pathParts
  if pathParts.length = 0 then .error "FileNotFoundError"
  else
    let curFile := pathParts.foldl lookupStep self
    if pathParts.getLastD "" ≠ "" ∧ pathParts.getLastD "" ≠ curFile.name then
      .error "FileNotFoundError"
    else .ok curFile

/-! ### Directory append (src/ext2/file/directory.py, `_EntryList.append`) -/

/-- The in-memory data of the last entry that `append` consults:
`_bindex`, `_bid`, `_offset` and `_size` (its current `rec_len`). -/
structure LastEntryState where
  bindex : Nat
  bid : Nat
  offset : Nat
  size : Nat
deriving DecidableEq

/-- What one `_EntryList.append` call does: the computed entry size, the
placement of the new record, the `rec_len` packed into the new record,
whether a fresh data block was allocated (and the directory size extended
by one block), and the value the `nextEntry` setter writes into the
previous entry's `rec_len` slot. -/
structure AppendResult where
  entrySize : Nat
  entryBindex : Nat
  entryBid : Nat
  entryOffset : Nat
  newInodeNum : Nat
  newRecLen : Nat
  newNameLen : Nat
  allocatedNewBlock : Bool
  prevRecLenWrite : Nat
deriving DecidableEq

/-- `_EntryList.append(name, inodeNum)` with `nameLength = len(name)`:
`entrySize = (nameLength + 11) - (nameLength + 11) % 4`; if
`entrySize + last.offset + last.size < blockSize` the record goes at
`last.offset + last.size` in the last block, else a block is allocated
(`allocBid`) and assigned as the inode's next block (`allocIndex`), the
directory grows by one block and the record goes at offset 0.  The packed
record carries `rec_len = entrySize`.  Linking `lastEntry.nextEntry =
newEntry` writes into the previous entry's `rec_len` the offset difference
when both live in the same block, else
`blockSize - last.offset + newOffset`.  (When the allocated block's index
equals `last.bindex` the source would compute a non-positive difference
and fail an assertion; `Nat` subtraction truncates instead — no claim
exercises that case.) -/
def entryListAppend (blockSize : Nat) (lastEntry : LastEntryState)
    (nameLength inodeNum allocBid allocIndex : Nat) : AppendResult :=
  let entrySize0 := nameLength + 11
  let entrySize := entrySize0 - entrySize0 % 4
  if entrySize + lastEntry.offset + lastEntry.size < blockSize then
    let entryOffset := lastEntry.offset + lastEntry.size
    { entrySize := entrySize
      entryBindex := lastEntry.bindex
      entryBid := lastEntry.bid
      entryOffset := entryOffset
      newInodeNum := inodeNum
      newRecLen := entrySize
      newNameLen := nameLength
      allocatedNewBlock := false
      prevRecLenWrite := entryOffset - lastEntry.offset }
  else
    { entrySize := entrySize
      entryBindex := allocIndex
      entryBid := allocBid
      entryOffset := 0
      newInodeNum := inodeNum
      newRecLen := entrySize
      newNameLen := nameLength
      allocatedNewBlock := true
      prevRecLenWrite :=
        if allocIndex = lastEntry.bindex then 0 - lastEntry.offset
        else blockSize - lastEntry.offset + 0 }

/-! ### Block allocation (src/ext2/fs/filesystem.py, `Ext2Filesystem._allocateBlock`) -/

/-- The superblock fields `_allocateBlock` consults. -/
structure SbGeom where
  numBlocksPerGroup : Nat
  blockSize : Nat
  firstDataBlockId : Nat
deriving DecidableEq

/-- The BGDT entry fields `_allocateBlock` consults. -/
structure BgdtEntry where
  blockBitmapLocation : Nat
  numFreeBlocks : Nat
deriving DecidableEq

/-- The `for groupNum, bgdtEntry in enumerate(...)` scan: the first entry
with a positive free-block counter, together with its group number. -/
def findFreeGroup : Nat → List BgdtEntry → Option (Nat × BgdtEntry)
  | _, [] => none
  | i, e :: rest => if e.numFreeBlocks > 0 then some (i, e) else findFreeGroup (i + 1) rest

/-- The inner `for i in range(8)` scan of one bitmap byte: the first bit
position whose bit is clear. -/
def findZeroBit (byte : Nat) : Option Nat :=
  (List.range 8).find? fun i => (1 <<< i) &&& byte = 0

/-- The `for byteIndex, byte in enumerate(bitmap)` scan: at the first byte
`≠ 255`, return the byte index and first clear bit; when that byte has no
clear bit among its low 8 (impossible for a real byte) the source falls
through to the next byte, as does this function. -/
def findFreeBitInBytes : Nat → List Nat → Option (Nat × Nat)
  | _, [] => none
  | byteIndex, byte :: rest =>
    if byte ≠ 255 then
      match findZeroBit byte with
      | some i => some (byteIndex, i)
      | none => findFreeBitInBytes (byteIndex + 1) rest
    else findFreeBitInBytes (byteIndex + 1) rest

/-- A successful allocation: the block id and the device writes performed
(the bitmap byte with the bit set, then — when zeroing was requested — one
zero byte per position of the fresh block).  The paired counter
decrements on the superblock and group entry are driven by these same
branch outcomes and are omitted from the record. -/
structure AllocOutcome where
  bid : Nat
  writes : List (Nat × Nat)
  groupNum : Nat
deriving DecidableEq

/-- `Ext2Filesystem._allocateBlock(zeros)`: scan the BGDT for the first
group with a positive free-block counter (else fail), read that group's
block bitmap (`numBlocksPerGroup / 8` bytes at
`blockBitmapLocation * blockSize`), find the first free bit (else fail
with the same `"No free blocks."` error), derive the block id, set the
bit, and optionally zero the block. -/
def allocateBlock (sb : SbGeom) (entries : List BgdtEntry) (dev : Nat → Nat)
    (zeros : Bool) : Except String AllocOutcome :=
  let bitmapSize := sb.numBlocksPerGroup / 8
  match findFreeGroup 0 entries with
  | none => .error "No free blocks."
  | some (groupNum, bgdtEntry) =>
    let bitmapStartPos := bgdtEntry.blockBitmapLocation * sb.blockSize
    let bitmap := (List.range bitmapSize).map fun k => dev (bitmapStartPos + k)
    if bitmap.length < bitmapSize then .error "Invalid block bitmap."
    else
      match findFreeBitInBytes 0 bitmap with
      | some (byteIndex, i) =>
        let bid := groupNum * sb.numBlocksPerGroup + byteIndex * 8 + i + sb.firstDataBlockId
        let byte := bitmap.getD byteIndex 0
        let zeroWrites :=
          if zeros then (List.range sb.blockSize).map fun k => (bid * sb.blockSize + k, 0)
          else []
        .ok ⟨bid, (bitmapStartPos + byteIndex, byte ||| (1 <<< i)) :: zeroWrites, groupNum⟩
      | none => .error "No free blocks."

/-! ### Theorems -/

/-- Claim C1: after `Device.write(offset, b)`, a subsequent
`Device.read(offset, len(b))` returns exactly `b`.  Evaluating the code at
a concrete failing input: on a device whose backing store is all zero
bytes, writing the byte string `[1]` at offset 0 and reading one byte back
yields `[0]`, not `[1]` — the write statement in the source is commented
out, so nothing reaches the backing store. -/
theorem C1_device_write_not_read_back :
    DeviceFromFile.read (DeviceFromFile.write ⟨fun _ => 0, true⟩ 0 [1]) 0 1 = [0] ∧
    ([0] : List Nat) ≠ [1] := by
  constructor
  · rfl
  · decide

/-- Claim C2: assigning a mutable superblock field writes the new value to
the on-disk superblock.  Evaluating the code: every one of the seven
writable property setters returns an empty list of device writes — each
setter updates only the in-memory mirror and carries a
`# TODO write to image` comment, so nothing is persisted at byte 1024 nor
at any copy-bearing group. -/
theorem C2_superblock_setters_never_write (sb : Superblock) (v : Nat) (s : String) :
    (sb.setNumFreeBlocks v).2 = [] ∧
    (sb.setNumFreeInodes v).2 = [] ∧
    (sb.setTimeLastMount v).2 = [] ∧
    (sb.setTimeLastWrite v).2 = [] ∧
    (sb.setNumMountsSinceCheck v).2 = [] ∧
    (sb.setState v).2 = [] ∧
    (sb.setVolumeName s).2 = [] :=
  ⟨rfl, rfl, rfl, rfl, rfl, rfl, rfl⟩

/-- Claim C3: the derived number of block groups equals
`⌈num_blocks / blocks_per_group⌉`.  Evaluating the code at a concrete
failing input: with `num_blocks = 5` and `blocks_per_group = 2` the source
computes `int(ceil(5 / 2))` under Python 2 integer division, i.e. `2`,
whereas the claimed ceiling `⌈5 / 2⌉ = (5 + 2 - 1) / 2 = 3`.  (The claim's
zero case does hold: the third conjunct.) -/
theorem C3_num_block_groups_floors :
    Superblock.numBlockGroupsOf 5 2 = 2 ∧
    Superblock.numBlockGroupsOf 5 2 ≠ (5 + 2 - 1) / 2 ∧
    ∀ n : Nat, Superblock.numBlockGroupsOf n 0 = 0 := by
  refine ⟨by decide, by decide, fun n => ?_⟩
  simp [Superblock.numBlockGroupsOf]

/-- Claim C9: an entry whose inode mode has type bits `0xA000` yields a
symlink object.  Evaluating the code at the failing input: for mode
`0xA1FF` (a symlink with permissions 0777) the regular-file test
`(mode & 0x8000) != 0` fires before the symlink test is reached, so
`_openEntry` instantiates `Ext2RegularFile`, not `Ext2Symlink`. -/
theorem C9_symlink_mode_opens_regular :
    openEntryClass 0xA1FF = FileClass.regular ∧
    FileClass.regular ≠ FileClass.symlink := by
  constructor
  · decide
  · decide

/-- Claim C4: the materialized entry list contains every active entry
from every data block, including those in the second and later blocks.
Evaluating the code at a failing input: a two-block directory (block size
16 for readability) whose first block is fully packed with one record
(inode 11, `rec_len` 16) and whose second block holds one record (inode
12).  Because `offset` is initialised once before the block loop and never
reset, parsing of the second block starts at `offset = 16 = blockSize`
and yields nothing: the materialized list holds only inode 11. -/
theorem C4_second_block_entries_lost :
    (entryListInit 16 2
        (fun i => if i = 0 then 5 else if i = 1 then 6 else 0)
        (fun b =>
          if b = 5 then [11, 0, 0, 0, 16, 0, 1, 0, 65, 0, 0, 0, 0, 0, 0, 0]
          else if b = 6 then [12, 0, 0, 0, 16, 0, 1, 0, 66, 0, 0, 0, 0, 0, 0, 0]
          else [])).map DirEntry.inodeNum = [11] ∧
    12 ∉ (entryListInit 16 2
        (fun i => if i = 0 then 5 else if i = 1 then 6 else 0)
        (fun b =>
          if b = 5 then [11, 0, 0, 0, 16, 0, 1, 0, 65, 0, 0, 0, 0, 0, 0, 0]
          else if b = 6 then [12, 0, 0, 0, 16, 0, 1, 0, 66, 0, 0, 0, 0, 0, 0, 0]
          else [])).map DirEntry.inodeNum := by
  constructor
  · decide
  · decide

/-- Claim C5: `lookup_block` resolves each logical block index through the
direct, single-, double- and triple-indirect ranges by the claimed
arithmetic (`IDS_PER_BLOCK = block_size / 4`), and fails for every index
at or beyond the triple-indirect maximum (the source raises
`FilesystemError("Block not found.")`, the spec's `OutOfRange`). -/
theorem C5_lookupBlockId_cases (store : Nat → Nat) (blockSize : Nat)
    (blocks : List Nat) (index : Nat) :
    (index < 12 →
      Inode.lookupBlockId store blockSize blocks index = .ok (blocks.getD index 0)) ∧
    (12 ≤ index → index < 12 + blockSize / 4 →
      Inode.lookupBlockId store blockSize blocks index =
        .ok ((getBidListAtBid store blockSize (blocks.getD 12 0)).getD (index - 12) 0)) ∧
    (12 + blockSize / 4 ≤ index → index < 12 + blockSize / 4 + (blockSize / 4) ^ 2 →
      Inode.lookupBlockId store blockSize blocks index =
        .ok ((getBidListAtBid store blockSize
          ((getBidListAtBid store blockSize (blocks.getD 13 0)).getD
            ((index - (12 + blockSize / 4)) / (blockSize / 4)) 0)).getD
          ((index - (12 + blockSize / 4)) % (blockSize / 4)) 0)) ∧
    (12 + blockSize / 4 + (blockSize / 4) ^ 2 ≤ index →
      index < 12 + blockSize / 4 + (blockSize / 4) ^ 2 + (blockSize / 4) ^ 3 →
      Inode.lookupBlockId store blockSize blocks index =
        .ok ((getBidListAtBid store blockSize
          ((getBidListAtBid store blockSize
            ((getBidListAtBid store blockSize (blocks.getD 14 0)).getD
              ((index - (12 + blockSize / 4 + (blockSize / 4) ^ 2)) / (blockSize / 4) ^ 2) 0)).getD
            ((index - (12 + blockSize / 4 + (blockSize / 4) ^ 2)) % (blockSize / 4) ^ 2
              / (blockSize / 4)) 0)).getD
          ((index - (12 + blockSize / 4 + (blockSize / 4) ^ 2)) % (blockSize / 4) ^ 2
            % (blockSize / 4)) 0)) ∧
    (12 + blockSize / 4 + (blockSize / 4) ^ 2 + (blockSize / 4) ^ 3 ≤ index →
      Inode.lookupBlockId store blockSize blocks index = .error "Block not found.") := by
  refine ⟨?_, ?_, ?_, ?_, ?_⟩ <;>
    simp only [Inode.lookupBlockId] <;>
    generalize blockSize / 4 = q <;>
    generalize q ^ 2 = q2 <;>
    generalize q ^ 3 = q3
  · intro h
    rw [if_pos h]
  · intro h1 h2
    rw [if_neg (by omega), if_pos h2]
  · intro h1 h2
    rw [if_neg (by omega), if_neg (by omega), if_pos h2]
  · intro h1 h2
    rw [if_neg (by omega), if_neg (by omega), if_neg (by omega), if_pos h2]
  · intro h
    rw [if_neg (by omega), if_neg (by omega), if_neg (by omega), if_neg (by omega)]

/-- Witness for C5: on a device holding 42 in the second id slot of block
100 (block size 8, so two ids per block), the single-indirect lookup at
index 13 goes through `blocks[12] = 100` and returns 42, and index 100
(beyond the triple-indirect maximum 26) fails. -/
theorem C5_lookupBlockId_cases_witness :
    Inode.lookupBlockId (fun p => if p = 804 then 42 else 0) 8
      [0, 0, 0, 0, 0, 0, 0, 0, 0, 0, 0, 0, 100, 0, 0] 13 = .ok 42 ∧
    Inode.lookupBlockId (fun p => if p = 804 then 42 else 0) 8
      [0, 0, 0, 0, 0, 0, 0, 0, 0, 0, 0, 0, 100, 0, 0] 100 =
      .error "Block not found." := by
  constructor
  · rw [(C5_lookupBlockId_cases (fun p => if p = 804 then 42 else 0) 8
      [0, 0, 0, 0, 0, 0, 0, 0, 0, 0, 0, 0, 100, 0, 0] 13).2.1 (by decide) (by decide)]
    rfl
  · exact (C5_lookupBlockId_cases (fun p => if p = 804 then 42 else 0) 8
      [0, 0, 0, 0, 0, 0, 0, 0, 0, 0, 0, 0, 100, 0, 0] 100).2.2.2.2 (by decide)

/-- Claim C6: `get_file_at` fails with `FileNotFound` whenever any
component of the path is missing.  Evaluating the code at a failing input:
in a root directory containing an empty subdirectory `b`, the path `b/b`
names nothing — yet `getFileAt` returns the subdirectory `b` itself,
because a component with no matching entry leaves the current file
unchanged and the final check only compares the last component against
that file's name. -/
theorem C6_missing_component_not_detected :
    getFileAt ⟨"r", .dir [("b", .dir [])]⟩ "b/b" = .ok ⟨"b", .dir []⟩ := rfl

/-- Counterexample for C7, at two explicit inputs (block size 1024, name
length 1, so `new_size = 12`).  First: the last entry sits at offset 1000
with `rec_len` 12, so `candidate = 1012` and `candidate + new_size = 1024
≤ block_size` — the claim places the entry at offset 1012 in the last
block (id 5), but the source's strict `<` comparison allocates a new block
and places the entry at offset 0.  Second: in a case that does fit (last
entry at offset 0), the new record's `rec_len` is written as its natural
size 12, not as the distance `1024 - 12` to the block boundary. -/
theorem C7_append_counterexample :
    ((entryListAppend 1024 ⟨0, 5, 1000, 12⟩ 1 7 99 3).allocatedNewBlock = true ∧
     (entryListAppend 1024 ⟨0, 5, 1000, 12⟩ 1 7 99 3).entryOffset = 0 ∧
     ¬ ((entryListAppend 1024 ⟨0, 5, 1000, 12⟩ 1 7 99 3).entryBid = 5 ∧
        (entryListAppend 1024 ⟨0, 5, 1000, 12⟩ 1 7 99 3).entryOffset = 1012)) ∧
    ((entryListAppend 1024 ⟨0, 5, 0, 12⟩ 1 7 99 3).newRecLen = 12 ∧
      (12 : Nat) ≠ 1024 - 12) := by
  constructor
  · decide
  · decide

/-- Claim C7 as amended: with `new_size = (name_length + 11) − (name_length
+ 11) mod 4` and `candidate = last.offset + last.size`, when `candidate +
new_size < block_size` (strictly) the entry is placed at `candidate` in
the last block without any allocation and the previous entry's `rec_len`
is rewritten to the distance to the new entry (its current stride
`last.size`); otherwise a new data block is allocated, assigned as the
inode's next block id, the directory size is extended by one block, the
entry is placed at offset 0, and the previous entry's `rec_len` is
extended to the block boundary (`block_size − last.offset`).  In both
cases the new record is written with `rec_len` equal to `new_size`, not
extended to the block boundary. -/
theorem C7_append_amended (blockSize : Nat) (last : LastEntryState)
    (nameLength inodeNum allocBid allocIndex : Nat) :
    (entryListAppend blockSize last nameLength inodeNum allocBid allocIndex).newRecLen
      = (nameLength + 11) - (nameLength + 11) % 4 ∧
    ((nameLength + 11) - (nameLength + 11) % 4 + last.offset + last.size < blockSize →
      entryListAppend blockSize last nameLength inodeNum allocBid allocIndex =
        ⟨(nameLength + 11) - (nameLength + 11) % 4, last.bindex, last.bid,
          last.offset + last.size, inodeNum, (nameLength + 11) - (nameLength + 11) % 4,
          nameLength, false, last.size⟩) ∧
    (blockSize ≤ (nameLength + 11) - (nameLength + 11) % 4 + last.offset + last.size →
      allocIndex ≠ last.bindex →
      entryListAppend blockSize last nameLength inodeNum allocBid allocIndex =
        ⟨(nameLength + 11) - (nameLength + 11) % 4, allocIndex, allocBid, 0,
          inodeNum, (nameLength + 11) - (nameLength + 11) % 4, nameLength, true,
          blockSize - last.offset⟩) := by
  refine ⟨?_, ?_, ?_⟩
  · by_cases hc :
      (nameLength + 11) - (nameLength + 11) % 4 + last.offset + last.size < blockSize
    · simp [entryListAppend, hc]
    · simp [entryListAppend, hc]
  · intro h
    unfold entryListAppend
    rw [if_pos h]
    simp [Nat.add_sub_cancel_left]
  · intro h hne
    unfold entryListAppend
    rw [if_neg (by omega)]
    simp [hne]

/-- Witness for C7's amended claim: the fit case at a last entry of stride
12 at offset 0, and the allocation case at the exact-fit boundary input of
the counterexample. -/
theorem C7_append_amended_witness :
    entryListAppend 1024 ⟨0, 5, 0, 12⟩ 1 7 99 3 =
      ⟨12, 0, 5, 12, 7, 12, 1, false, 12⟩ ∧
    entryListAppend 1024 ⟨0, 5, 1000, 12⟩ 1 7 99 3 =
      ⟨12, 3, 99, 0, 7, 12, 1, true, 24⟩ := by
  constructor
  · rw [(C7_append_amended 1024 ⟨0, 5, 0, 12⟩ 1 7 99 3).2.1 (by decide)]
    decide
  · rw [(C7_append_amended 1024 ⟨0, 5, 1000, 12⟩ 1 7 99 3).2.2 (by decide) (by decide)]
    decide

/-- Helper: the byte scan of `_allocateBlock` finds nothing in a bitmap
whose bytes are all 255, whatever the starting byte index. -/
theorem findFreeBitInBytes_all255 (bytes : List Nat) (h : ∀ b ∈ bytes, b = 255) :
    ∀ i, findFreeBitInBytes i bytes = none := by
  induction bytes with
  | nil => intro i; rfl
  | cons b rest ih =>
    intro i
    have hb : b = 255 := h b (by simp)
    unfold findFreeBitInBytes
    rw [hb]
    simpa using ih (fun x hx => h x (by simp [hx])) (i + 1)

/-- Claim C10: `allocate_block` commits to the first BGDT entry whose
free-block counter is positive: when that group's block bitmap has no zero
bit, the call fails with the no-free-blocks error without examining any
later group, whatever the later entries and their bitmaps hold. -/
theorem C10_allocateBlock_commits_to_first_group (sb : SbGeom)
    (entries : List BgdtEntry) (dev : Nat → Nat) (zeros : Bool)
    (g : Nat) (e : BgdtEntry)
    (hfind : findFreeGroup 0 entries = some (g, e))
    (hfull : ∀ k, k < sb.numBlocksPerGroup / 8 →
      dev (e.blockBitmapLocation * sb.blockSize + k) = 255) :
    allocateBlock sb entries dev zeros = .error "No free blocks." := by
  unfold allocateBlock
  rw [hfind]
  have hnone : findFreeBitInBytes 0
      ((List.range (sb.numBlocksPerGroup / 8)).map fun k =>
        dev (e.blockBitmapLocation * sb.blockSize + k)) = none := by
    refine findFreeBitInBytes_all255 _ ?_ 0
    intro b hb
    simp only [List.mem_map, List.mem_range] at hb
    obtain ⟨k, hk, rfl⟩ := hb
    exact hfull k hk
  simp [hnone]

/-- Witness for C10: group 0 reports 5 free blocks but its two-byte bitmap
(at bytes 12–13) is all ones, while group 1 reports 7 free blocks and its
bitmap (at bytes 16–17) is all zero — the allocation still fails with the
no-free-blocks error, and the last conjunct shows group 1's bitmap did
have a free bit at byte 0, bit 0. -/
theorem C10_allocateBlock_commits_to_first_group_witness :
    allocateBlock ⟨16, 4, 1⟩ [⟨3, 5⟩, ⟨4, 7⟩]
      (fun p => if 12 ≤ p ∧ p < 14 then 255 else 0) false =
      .error "No free blocks." ∧
    findFreeBitInBytes 0 ((List.range 2).map fun k =>
      (fun p => if 12 ≤ p ∧ p < 14 then 255 else 0) (4 * 4 + k)) = some (0, 0) := by
  constructor
  · refine C10_allocateBlock_commits_to_first_group ⟨16, 4, 1⟩ [⟨3, 5⟩, ⟨4, 7⟩]
      (fun p => if 12 ≤ p ∧ p < 14 then 255 else 0) false 0 ⟨3, 5⟩ (by decide) ?_
    intro k hk
    interval_cases k <;> rfl
  · decide

/-- Claim C8: appending 10,000 bytes to an empty regular file on a
4096-byte-block filesystem sets the size to 10,000.  Evaluating the code
at the failing input: the loop guard `written < len(byteString)` compares
the running total against the length of the still-unwritten remainder, so
the loop exits after two passes with the inode size at 8,192 — the last
1,808 bytes are never written. -/
theorem C8_write_stops_early :
    regularFileWrite 4096 0 10000 = 8192 ∧ (8192 : Nat) ≠ 10000 := by
  constructor
  · rfl
  · decide
